import Mathlib

/-!
Verification of the folder-permission reconciler
(`internal/resources/grafana/resource_folder_permission.go`).

The development embeds the Go source shallowly:

* `parseInt64` / `parseUint64Core` model `strconv.ParseInt(s, 10, 64)`,
  including its exact error-value convention (0 on syntax error, the
  clamped boundary value on range error) since the source discards the
  returned error.
* `natToDecChars` / `formatInt` model `strconv.FormatInt(v, 10)`.
* `SplitOrgResourceID` / `MakeOrgResourceID` model the org-scoped
  identifier codec.
* `toPermissionCommand` models the entry-to-command loop of
  `UpdateFolderPermissions`; `toPermissionItem` models the grant-to-entry
  loop of `ReadFolderPermissions`.
* `UpdateFolderPermissions`, `ReadFolderPermissions` and
  `DeleteFolderPermissions` are modelled as pure functions over an
  abstract `Client` capability; each returns the updated resource data,
  the diagnostics, and the trace of API calls issued.
-/

/-- Maximum value of Go's `uint64` (`1<<64 - 1`); `ParseUint`'s `maxVal`
for bit size 64. -/
def maxUint64 : Nat := 2 ^ 64 - 1

/-- `ParseUint`'s overflow cutoff for base 10: `maxVal/base + 1`. -/
def cutoff64 : Nat := maxUint64 / 10 + 1

/-- Value of a decimal digit character, as in Go's per-character check
`'0' <= c && c <= '9'` inside `ParseUint`; `none` mirrors the syntax-error
branch. -/
def digitVal (c : Char) : Option Nat :=
  if 48 ≤ c.toNat ∧ c.toNat ≤ 57 then some (c.toNat - 48) else none

/-- Outcome of Go's `strconv.ParseUint`: a value, a range error (value
clamped to `maxVal`), or a syntax error (value 0). -/
inductive ParseResult where
  | ok (n : Nat)
  | rangeErr
  | syntaxErr
deriving DecidableEq

/-- The digit-accumulation loop of Go's `strconv.ParseUint(s, 10, 64)`.
A non-digit stops with a syntax error; exceeding the cutoff or `maxVal`
stops immediately with a range error (remaining characters unchecked,
exactly as in Go). -/
def parseUint64Core (acc : Nat) : List Char → ParseResult
  | [] => ParseResult.ok acc
  | c :: cs =>
    match digitVal c with
    | none => ParseResult.syntaxErr
    | some d =>
      if acc ≥ cutoff64 then ParseResult.rangeErr
      else
        let n1 := acc * 10 + d
        if n1 > maxUint64 then ParseResult.rangeErr
        else parseUint64Core n1 cs

/-- Go's `strconv.ParseUint(s, 10, 64)`: the empty string is a syntax
error. -/
def parseUint64 (l : List Char) : ParseResult :=
  match l with
  | [] => ParseResult.syntaxErr
  | l => parseUint64Core 0 l

/-- Go's `strconv.ParseInt(s, 10, 64)` as used by the source with the
error discarded: the returned `int64` value only.  Syntax errors yield 0;
values outside `[-2^63, 2^63)` are clamped to the boundary
(`math.MaxInt64` / `math.MinInt64`), which is what Go returns alongside
`ErrRange`. -/
def parseInt64Aux (neg : Bool) (digs : List Char) : Int :=
  match parseUint64 digs with
  | ParseResult.syntaxErr => 0
  | ParseResult.rangeErr => if neg then -(2 ^ 63) else (2 ^ 63 - 1 : Int)
  | ParseResult.ok un =>
    if neg = false ∧ un ≥ 2 ^ 63 then ((2 ^ 63 - 1 : Nat) : Int)
    else if neg = true ∧ un > 2 ^ 63 then -(2 ^ 63)
    else if neg then -(un : Int) else (un : Int)

/-- The sign handling of `strconv.ParseInt`: strip a single leading `+`
or `-` and parse the remaining characters as an unsigned number. -/
def parseInt64 (s : String) : Int :=
  match s.data with
  | [] => 0
  | c :: rest =>
    if c = '+' then parseInt64Aux false rest
    else if c = '-' then parseInt64Aux true rest
    else parseInt64Aux false (c :: rest)

/-- Decimal digits of a natural number, most significant first, built by
a fuelled loop (fuel `n+1` always suffices); models the digit emission of
`strconv.FormatInt`. -/
def decDigits : Nat → Nat → List Char → List Char
  | 0, _, acc => acc
  | fuel + 1, n, acc =>
    let acc1 := Char.ofNat (48 + n % 10) :: acc
    if n / 10 = 0 then acc1 else decDigits fuel (n / 10) acc1

/-- Decimal representation of a natural number (`"0"` for 0). -/
def natToDecChars (n : Nat) : List Char := decDigits (n + 1) n []

/-- Go's `strconv.FormatInt(v, 10)`. -/
def formatInt (i : Int) : String :=
  if i < 0 then String.mk ('-' :: natToDecChars i.natAbs)
  else String.mk (natToDecChars i.toNat)

/-- Split a character list at its first `':'`; `none` when there is no
colon.  This is `strings.SplitN(id, ":", 2)` guarded by
`strings.ContainsRune(id, ':')`. -/
def splitFirstColon : List Char → Option (List Char × List Char)
  | [] => none
  | c :: cs =>
    if c = ':' then some ([], cs)
    else
      match splitFirstColon cs with
      | none => none
      | some pr => some (c :: pr.1, pr.2)

/-- Modelled from the spec: `SplitOrgResourceID` is called by the source
but defined outside this unit.  The spec describes the decode direction
of the identity codec: a token with an org segment before the first `':'`
splits into the parsed org id and the remainder; a token produced without
an explicit org segment defaults the org id to a well-known default
value, passed here as an explicit configuration parameter. -/
def SplitOrgResourceID (defaultOrg : Int) (id : String) : Int × String :=
  match splitFirstColon id.data with
  | some pr => (parseInt64 (String.mk pr.1), String.mk pr.2)
  | none => (defaultOrg, id)

/-- Modelled from the spec: `MakeOrgResourceID` is called by the source
but defined outside this unit.  The spec describes the encode direction
of the identity codec: a deterministic, reversible concatenation of the
org id and the resource uid (Scenario A: org 1, uid `"abc123"` encode to
`"1:abc123"`). -/
def MakeOrgResourceID (orgID : Int) (resourceID : String) : String :=
  formatInt orgID ++ ":" ++ resourceID

/-- The well-known default organization id used when a stored identifier
carries no explicit org segment. -/
def defaultOrgID : Int := 1

/-- `foldersPermissionsType`: the fixed resource-type tag. -/
def foldersPermissionsType : String := "folders"

/-- A declared permission entry: the four-key map handled by the
source (`role`, `team_id`, `user_id`, `permission`). -/
structure PermissionEntry where
  role : String
  team_id : String
  user_id : String
  permission : String
deriving DecidableEq

/-- `models.SetResourcePermissionCommand`: the wire-form grant command.
Zero values are Go's zero values for the struct fields. -/
structure SetResourcePermissionCommand where
  BuiltInRole : String
  TeamID : Int
  UserID : Int
  Permission : String
deriving DecidableEq

/-- `models.ResourcePermissionDTO` (the fields the source reads): a grant
as returned by the access-control API. -/
structure ResourcePermissionDTO where
  BuiltInRole : String
  TeamID : Int
  UserID : Int
  Permission : String
  IsManaged : Bool
  IsInherited : Bool
deriving DecidableEq

/-- The loop body of `UpdateFolderPermissions` (lines 104-120): build a
`SetResourcePermissionCommand` from one declared entry.  Each field is a
conditional assignment on top of the struct's zero value, exactly as in
the source. -/
def toPermissionCommand (p : PermissionEntry) : SetResourcePermissionCommand :=
  let item0 : SetResourcePermissionCommand :=
    { BuiltInRole := "", TeamID := 0, UserID := 0, Permission := "" }
  let item1 := if p.role ≠ "" then { item0 with BuiltInRole := p.role } else item0
  let teamID := parseInt64 (SplitOrgResourceID defaultOrgID p.team_id).2
  let item2 := if teamID > 0 then { item1 with TeamID := teamID } else item1
  let userID := parseInt64 (SplitOrgResourceID defaultOrgID p.user_id).2
  let item3 := if userID > 0 then { item2 with UserID := userID } else item2
  { item3 with Permission := p.permission }

/-- The loop body of `ReadFolderPermissions` (lines 150-162): unmanaged
or inherited grants are skipped (`continue`); the rest map to a declared
entry with the numeric ids rendered by `strconv.FormatInt(_, 10)`. -/
def toPermissionItem (g : ResourcePermissionDTO) : Option PermissionEntry :=
  if !g.IsManaged || g.IsInherited then none
  else
    some { role := g.BuiltInRole
           team_id := formatInt g.TeamID
           user_id := formatInt g.UserID
           permission := g.Permission }

/-- A grant as the remote service would report a stored command back,
with the given provenance flags. -/
def grantOfCommand (c : SetResourcePermissionCommand) (managed inherited : Bool) :
    ResourcePermissionDTO :=
  { BuiltInRole := c.BuiltInRole, TeamID := c.TeamID, UserID := c.UserID,
    Permission := c.Permission, IsManaged := managed, IsInherited := inherited }

/-- The custom `Set` hash key of the `permissions` schema (lines 50-55):
the org scope of the team/SA id is ignored before concatenating
`role ++ teamID ++ userID ++ permission`. -/
def permissionSetKey (p : PermissionEntry) : String :=
  p.role ++ (SplitOrgResourceID defaultOrgID p.team_id).2
    ++ (SplitOrgResourceID defaultOrgID p.user_id).2 ++ p.permission

/-- Modelled from the spec: the schema set container (external to this
unit) deduplicates declared entries by the custom hash key, keeping the
first occurrence of each key. -/
def dedupByKey (l : List PermissionEntry) : List PermissionEntry :=
  l.foldl
    (fun acc p =>
      if acc.any (fun q => permissionSetKey q = permissionSetKey p) then acc
      else acc ++ [p])
    []

/-- Errors returned by the external capability; `notFound` is the case
`common.IsNotFoundError` recognizes. -/
inductive APIError where
  | notFound
  | other (msg : String)
deriving DecidableEq

/-- One call issued to the external capability, recorded for the wire
trace of an operation. -/
inductive APICall where
  | getFolderByUID (uid : String)
  | getResourcePermissions (uid : String) (ptype : String)
  | setResourcePermissions (uid : String) (ptype : String)
      (cmds : List SetResourcePermissionCommand)
deriving DecidableEq

/-- Whether a trace entry is a mutating set-resource-permissions call. -/
def APICall.isSetCall : APICall → Bool
  | APICall.setResourcePermissions _ _ _ => true
  | _ => false

/-- The consumed `AccessControlClient` capability: folder lookup, grant
fetch, and full-replace grant write, each possibly failing. -/
structure Client where
  getFolderByUID : String → Option APIError
  getResourcePermissions : String → String → Except APIError (List ResourcePermissionDTO)
  setResourcePermissions : String → String →
    List SetResourcePermissionCommand → Option APIError

/-- The schema resource data the lifecycle callbacks read and write: the
stored identity token and the three declared attributes. -/
structure ResourceData where
  id : String
  org_id : String
  folder_uid : String
  permissions : List PermissionEntry
deriving DecidableEq

/-- Severity of the diagnostics a lifecycle callback returns: `ok` is the
nil diagnostics, `warning` is a non-error diagnostic, `error` is a
failure carrying the upstream error verbatim. -/
inductive Diags where
  | ok
  | warning
  | error (e : APIError)
deriving DecidableEq

/-- Whether the diagnostics report a failure. -/
def Diags.isError : Diags → Bool
  | Diags.error _ => true
  | _ => false

/-- Modelled from the spec: `common.CheckReadError` is called by the
source but defined outside this unit.  Per the spec's error taxonomy, a
nil error continues (`shouldReturn = false`); a not-found error drops the
stored identity and returns non-error diagnostics (the resource is
treated as already absent); any other error is returned to the caller. -/
def CheckReadError (d : ResourceData) (e : Option APIError) :
    ResourceData × Diags × Bool :=
  match e with
  | none => (d, Diags.ok, false)
  | some APIError.notFound => ({ d with id := "" }, Diags.warning, true)
  | some err => (d, Diags.error err, true)

/-- `ReadFolderPermissions` (lines 134-170): decode the stored identity,
check the folder still exists, fetch the grants, filter and map them, and
re-store identity and attributes.  Returns the updated resource data, the
diagnostics, and the trace of calls issued. -/
def ReadFolderPermissions (c : Client) (d : ResourceData) :
    ResourceData × Diags × List APICall :=
  let orgID := (SplitOrgResourceID defaultOrgID d.id).1
  let folderUID := (SplitOrgResourceID defaultOrgID d.id).2
  let calls1 := [APICall.getFolderByUID folderUID]
  let r1 := CheckReadError d (c.getFolderByUID folderUID)
  if r1.2.2 then (r1.1, r1.2.1, calls1)
  else
    let calls2 := calls1 ++ [APICall.getResourcePermissions folderUID foldersPermissionsType]
    match c.getResourcePermissions folderUID foldersPermissionsType with
    | Except.error e =>
      let r2 := CheckReadError d (some e)
      (r2.1, r2.2.1, calls2)
    | Except.ok grants =>
      ({ d with id := MakeOrgResourceID orgID folderUID
                org_id := formatInt orgID
                folder_uid := folderUID
                permissions := grants.filterMap toPermissionItem },
       Diags.ok, calls2)

/-- `UpdateFolderPermissions` (lines 95-132, also the create callback):
map every declared entry to a command, submit the full list as a total
replacement, and on success store the encoded identity and re-read.  The
org id is parsed from the declared `org_id` attribute
(`OAPIClientFromNewOrgResource`).  Returns the updated resource data, the
diagnostics, and the trace of calls issued. -/
def UpdateFolderPermissions (c : Client) (d : ResourceData) :
    ResourceData × Diags × List APICall :=
  let orgID := parseInt64 d.org_id
  let permissionList := d.permissions.map toPermissionCommand
  let folderUID := d.folder_uid
  let setCall := APICall.setResourcePermissions folderUID foldersPermissionsType permissionList
  match c.setResourcePermissions folderUID foldersPermissionsType permissionList with
  | some e => (d, Diags.error e, [setCall])
  | none =>
    let d1 := { d with id := MakeOrgResourceID orgID folderUID }
    let r := ReadFolderPermissions c d1
    (r.1, r.2.1, setCall :: r.2.2)

/-- `DeleteFolderPermissions` (lines 172-180): submit an empty command
list for the folder decoded from the stored identity; a not-found error
from the call is swallowed (`CheckReadError`).  Returns the updated
resource data, the diagnostics, and the trace of calls issued. -/
def DeleteFolderPermissions (c : Client) (d : ResourceData) :
    ResourceData × Diags × List APICall :=
  let folderUID := (SplitOrgResourceID defaultOrgID d.id).2
  let err := c.setResourcePermissions folderUID foldersPermissionsType []
  let r := CheckReadError d err
  (r.1, r.2.1, [APICall.setResourcePermissions folderUID foldersPermissionsType []])

/-- The sign-stripping step of `strconv.ParseInt`: whether a leading `-`
was seen, and the remaining characters handed to `ParseUint`. -/
def stripSign (l : List Char) : Bool × List Char :=
  match l with
  | [] => (false, [])
  | c :: rest =>
    if c = '+' then (false, rest)
    else if c = '-' then (true, rest)
    else (false, c :: rest)

/-- A client on which every call succeeds and no grants exist remotely;
used to exercise Scenario A concretely. -/
def scenarioClientA : Client :=
  { getFolderByUID := fun _ => none,
    getResourcePermissions := fun _ _ => Except.ok [],
    setResourcePermissions := fun _ _ _ => none }

/-- Scenario A's declared state: org 1, folder uid `abc123`, one declared
entry granting `Edit` to the `Editor` role. -/
def scenarioDataA : ResourceData :=
  { id := "", org_id := "1", folder_uid := "abc123",
    permissions := [{ role := "Editor", team_id := "0", user_id := "0",
                      permission := "Edit" }] }

/-- A client returning Scenario B's two remote grants: a managed
non-inherited `View` grant for team 5 and a managed inherited `Admin`
grant for team 9. -/
def scenarioClientB : Client :=
  { getFolderByUID := fun _ => none,
    getResourcePermissions := fun _ _ => Except.ok
      [{ BuiltInRole := "", TeamID := 5, UserID := 0, Permission := "View",
         IsManaged := true, IsInherited := false },
       { BuiltInRole := "", TeamID := 9, UserID := 0, Permission := "Admin",
         IsManaged := true, IsInherited := true }],
    setResourcePermissions := fun _ _ _ => none }

/-- A stored state with identity `1:abc123`, used for read-side
scenarios. -/
def scenarioDataB : ResourceData :=
  { id := "1:abc123", org_id := "1", folder_uid := "abc123", permissions := [] }

/-- A client whose underlying folder is gone: every call reports
not-found. -/
def goneClient : Client :=
  { getFolderByUID := fun _ => some APIError.notFound,
    getResourcePermissions := fun _ _ => Except.error APIError.notFound,
    setResourcePermissions := fun _ _ _ => some APIError.notFound }

/-- A client whose write call is rejected upstream. -/
def rejectClient : Client :=
  { getFolderByUID := fun _ => none,
    getResourcePermissions := fun _ _ => Except.ok [],
    setResourcePermissions := fun _ _ _ => some (APIError.other "upstream rejected") }

/-! ## Helper lemmas: strings, digits, splitting -/

theorem mk_data (s : String) : String.mk s.data = s := rfl

theorem data_mk (l : List Char) : (String.mk l).data = l := rfl

theorem data_append (a b : String) : (a ++ b).data = a.data ++ b.data := by
  cases a; cases b; rfl

theorem toNat_ofNat_digit (m : Nat) (h : m < 10) :
    (Char.ofNat (48 + m)).toNat = 48 + m := by
  interval_cases m <;> decide

theorem digitVal_digit (m : Nat) (h : m < 10) :
    digitVal (Char.ofNat (48 + m)) = some m := by
  unfold digitVal
  rw [toNat_ofNat_digit m h, if_pos (by omega)]
  congr 1
  omega

theorem splitFirstColon_not_mem (l : List Char) (h : ∀ c ∈ l, c ≠ ':') :
    splitFirstColon l = none := by
  induction l with
  | nil => rfl
  | cons c cs ih =>
    simp only [splitFirstColon]
    rw [if_neg (h c (List.mem_cons_self c cs)),
      ih (fun x hx => h x (List.mem_cons_of_mem c hx))]

theorem splitFirstColon_append (l1 l2 : List Char) (h : ∀ c ∈ l1, c ≠ ':') :
    splitFirstColon (l1 ++ ':' :: l2) = some (l1, l2) := by
  induction l1 with
  | nil => simp [splitFirstColon]
  | cons c cs ih =>
    simp only [List.cons_append, splitFirstColon]
    rw [if_neg (h c (List.mem_cons_self c cs)),
      show cs.append (':' :: l2) = cs ++ ':' :: l2 from rfl,
      ih (fun x hx => h x (List.mem_cons_of_mem c hx))]

/-! ## Correctness of the decimal formatter -/

theorem decDigits_acc (f : Nat) : ∀ n acc,
    decDigits f n acc = decDigits f n [] ++ acc := by
  induction f with
  | zero => intro n acc; simp [decDigits]
  | succ f ih =>
    intro n acc
    simp only [decDigits]
    by_cases h : n / 10 = 0
    · simp [h]
    · rw [if_neg h, if_neg h, ih (n / 10) (Char.ofNat (48 + n % 10) :: acc),
        ih (n / 10) [Char.ofNat (48 + n % 10)], List.append_assoc]
      rfl

theorem decDigits_fuel (f : Nat) : ∀ g n acc, n < 10 ^ f → n < 10 ^ g →
    decDigits (f + 1) n acc = decDigits (g + 1) n acc := by
  induction f with
  | zero =>
    intro g n acc hf _
    have hn : n = 0 := by simpa using hf
    subst hn
    cases g with
    | zero => rfl
    | succ g => simp [decDigits]
  | succ f ih =>
    intro g n acc hf hg
    simp only [decDigits]
    by_cases h : n / 10 = 0
    · simp [h]
    · rw [if_neg h, if_neg h]
      cases g with
      | zero =>
        exfalso
        have : n = 0 := by simpa using hg
        omega
      | succ g' =>
        exact ih g' (n / 10) _
          (Nat.div_lt_of_lt_mul (by rw [← pow_succ']; exact hf))
          (Nat.div_lt_of_lt_mul (by rw [← pow_succ']; exact hg))

theorem natToDecChars_eq (n : Nat) :
    natToDecChars n =
      if n < 10 then [Char.ofNat (48 + n)]
      else natToDecChars (n / 10) ++ [Char.ofNat (48 + n % 10)] := by
  by_cases h : n < 10
  · have h0 : n / 10 = 0 := Nat.div_eq_of_lt h
    simp [natToDecChars, decDigits, h0, Nat.mod_eq_of_lt h, h]
  · have h0 : ¬ n / 10 = 0 := by omega
    rw [if_neg h]
    show decDigits (n + 1) n [] = _
    simp only [decDigits, if_neg h0]
    rw [decDigits_acc]
    have hq : n / 10 < n := Nat.div_lt_self (by omega) (by norm_num)
    obtain ⟨m, rfl⟩ : ∃ m, n = m + 1 := ⟨n - 1, by omega⟩
    rw [show natToDecChars ((m + 1) / 10) = decDigits ((m + 1) / 10 + 1) ((m + 1) / 10) [] from rfl]
    rw [decDigits_fuel m ((m + 1) / 10) ((m + 1) / 10) []
      (lt_of_le_of_lt (by omega : (m + 1) / 10 ≤ m)
        (Nat.lt_pow_self (by norm_num) m))
      (Nat.lt_pow_self (by norm_num) ((m + 1) / 10))]

theorem natToDecChars_digit (n : Nat) :
    ∀ c ∈ natToDecChars n, 48 ≤ c.toNat ∧ c.toNat ≤ 57 := by
  induction n using Nat.strong_induction_on with
  | _ n ih =>
    intro c hc
    rw [natToDecChars_eq] at hc
    by_cases h : n < 10
    · rw [if_pos h, List.mem_singleton] at hc
      subst hc
      rw [toNat_ofNat_digit n h]
      omega
    · rw [if_neg h, List.mem_append, List.mem_singleton] at hc
      rcases hc with hc | hc
      · exact ih (n / 10) (Nat.div_lt_self (by omega) (by norm_num)) c hc
      · subst hc
        rw [toNat_ofNat_digit (n % 10) (Nat.mod_lt _ (by norm_num))]
        omega

theorem natToDecChars_ne_nil (n : Nat) : natToDecChars n ≠ [] := by
  rw [natToDecChars_eq]
  by_cases h : n < 10 <;> simp [h]

/-! ## Correctness of the decimal parser -/

theorem maxUint64_val : maxUint64 = 18446744073709551615 := by norm_num [maxUint64]

theorem cutoff64_val : cutoff64 = 1844674407370955162 := by
  norm_num [cutoff64, maxUint64]

theorem parseUint64Core_append (l1 l2 : List Char) : ∀ acc,
    parseUint64Core acc (l1 ++ l2) =
      match parseUint64Core acc l1 with
      | ParseResult.ok m => parseUint64Core m l2
      | r => r := by
  induction l1 with
  | nil => intro acc; simp [parseUint64Core]
  | cons c cs ih =>
    intro acc
    simp only [List.cons_append, parseUint64Core]
    cases hdv : digitVal c with
    | none => simp
    | some d =>
      dsimp only
      by_cases h1 : acc ≥ cutoff64
      · simp [h1]
      · rw [if_neg h1, if_neg h1]
        by_cases h2 : acc * 10 + d > maxUint64
        · simp [h2]
        · rw [if_neg h2, if_neg h2]
          exact ih _

theorem parseUint64Core_last (m r : Nat) (hr : r < 10)
    (hle : m * 10 + r ≤ maxUint64) :
    parseUint64Core m [Char.ofNat (48 + r)] = ParseResult.ok (m * 10 + r) := by
  have hmax := maxUint64_val
  have hcut := cutoff64_val
  simp only [parseUint64Core, digitVal_digit r hr]
  rw [if_neg (by omega), if_neg (by omega)]

theorem parseUint64Core_natToDecChars (n : Nat) : ∀ acc,
    acc * 10 ^ (natToDecChars n).length + n ≤ maxUint64 →
    parseUint64Core acc (natToDecChars n) =
      ParseResult.ok (acc * 10 ^ (natToDecChars n).length + n) := by
  induction n using Nat.strong_induction_on with
  | _ n ih =>
    intro acc hle
    by_cases h : n < 10
    · rw [natToDecChars_eq, if_pos h] at hle ⊢
      simp only [List.length_singleton, pow_one] at hle ⊢
      exact parseUint64Core_last acc n h hle
    · rw [natToDecChars_eq, if_neg h] at hle ⊢
      rw [List.length_append, List.length_singleton] at hle ⊢
      rw [pow_succ, ← mul_assoc] at hle ⊢
      have hrec : acc * 10 ^ (natToDecChars (n / 10)).length + n / 10 ≤ maxUint64 := by
        generalize acc * 10 ^ (natToDecChars (n / 10)).length = A at hle ⊢
        omega
      rw [parseUint64Core_append]
      rw [ih (n / 10) (Nat.div_lt_self (by omega) (by norm_num)) acc hrec]
      have hlast : (acc * 10 ^ (natToDecChars (n / 10)).length + n / 10) * 10 + n % 10
          ≤ maxUint64 := by
        generalize acc * 10 ^ (natToDecChars (n / 10)).length = A at hle ⊢
        omega
      dsimp only
      rw [parseUint64Core_last _ (n % 10) (Nat.mod_lt _ (by norm_num)) hlast]
      congr 1
      generalize acc * 10 ^ (natToDecChars (n / 10)).length = A at hle ⊢
      omega

theorem parseUint64_natToDecChars (n : Nat) (h : n ≤ maxUint64) :
    parseUint64 (natToDecChars n) = ParseResult.ok n := by
  have hcore := parseUint64Core_natToDecChars n 0 (by simpa using h)
  cases hl : natToDecChars n with
  | nil => exact absurd hl (natToDecChars_ne_nil n)
  | cons c cs =>
    rw [hl] at hcore
    simpa [parseUint64] using hcore

theorem formatInt_no_colon (i : Int) : ∀ c ∈ (formatInt i).data, c ≠ ':' := by
  intro c hc
  unfold formatInt at hc
  by_cases h : i < 0
  · rw [if_pos h, data_mk] at hc
    rcases List.mem_cons.mp hc with rfl | hc
    · decide
    · intro e
      subst e
      exact absurd (natToDecChars_digit _ _ hc) (by decide)
  · rw [if_neg h, data_mk] at hc
    intro e
    subst e
    exact absurd (natToDecChars_digit _ _ hc) (by decide)

theorem parseInt64Aux_ok_false (digs : List Char) (un : Nat)
    (hp : parseUint64 digs = ParseResult.ok un) (hun : un < 2 ^ 63) :
    parseInt64Aux false digs = (un : Int) := by
  unfold parseInt64Aux
  rw [hp]
  show (if false = false ∧ un ≥ 2 ^ 63 then ((2 ^ 63 - 1 : Nat) : Int)
    else if false = true ∧ un > 2 ^ 63 then -(2 ^ 63)
    else if (false : Bool) then -(un : Int) else (un : Int)) = (un : Int)
  rw [if_neg (by rintro ⟨-, hge⟩; omega),
    if_neg (by rintro ⟨h, -⟩; exact absurd h (by decide)),
    if_neg (by decide)]

theorem parseInt64Aux_ok_true (digs : List Char) (un : Nat)
    (hp : parseUint64 digs = ParseResult.ok un) (hun : un ≤ 2 ^ 63) :
    parseInt64Aux true digs = -(un : Int) := by
  unfold parseInt64Aux
  rw [hp]
  show (if true = false ∧ un ≥ 2 ^ 63 then ((2 ^ 63 - 1 : Nat) : Int)
    else if true = true ∧ un > 2 ^ 63 then -(2 ^ 63)
    else if (true : Bool) then -(un : Int) else (un : Int)) = -(un : Int)
  rw [if_neg (by rintro ⟨h, -⟩; exact absurd h (by decide)),
    if_neg (by rintro ⟨-, hgt⟩; omega),
    if_pos (by decide)]

theorem parseInt64_mk_natToDecChars (n : Nat) (h : n < 2 ^ 63) :
    parseInt64 (String.mk (natToDecChars n)) = (n : Int) := by
  cases hl : natToDecChars n with
  | nil => exact absurd hl (natToDecChars_ne_nil n)
  | cons c cs =>
    have hd : 48 ≤ c.toNat ∧ c.toNat ≤ 57 :=
      natToDecChars_digit n c (by rw [hl]; exact List.mem_cons_self c cs)
    have hplus : ¬ c = '+' := by rintro rfl; revert hd; decide
    have hminus : ¬ c = '-' := by rintro rfl; revert hd; decide
    have hparse : parseUint64 (c :: cs) = ParseResult.ok n := by
      rw [← hl]
      exact parseUint64_natToDecChars n (by rw [maxUint64_val]; omega)
    show parseInt64 (String.mk (c :: cs)) = (n : Int)
    unfold parseInt64
    rw [data_mk]
    show (if c = '+' then parseInt64Aux false cs
      else if c = '-' then parseInt64Aux true cs
      else parseInt64Aux false (c :: cs)) = (n : Int)
    rw [if_neg hplus, if_neg hminus, parseInt64Aux_ok_false (c :: cs) n hparse h]

theorem parseInt64_formatInt (i : Int) (h1 : -(2 ^ 63) ≤ i) (h2 : i < 2 ^ 63) :
    parseInt64 (formatInt i) = i := by
  by_cases h : i < 0
  · rw [formatInt, if_pos h]
    have hparse : parseUint64 (natToDecChars i.natAbs) = ParseResult.ok i.natAbs :=
      parseUint64_natToDecChars _ (by rw [maxUint64_val]; omega)
    unfold parseInt64
    rw [data_mk]
    cases hl : natToDecChars i.natAbs with
    | nil => exact absurd hl (natToDecChars_ne_nil _)
    | cons c cs =>
      show (if '-' = '+' then parseInt64Aux false (c :: cs)
        else if '-' = '-' then parseInt64Aux true (c :: cs)
        else parseInt64Aux false ('-' :: c :: cs)) = i
      rw [if_neg (by decide), if_pos rfl, ← hl,
        parseInt64Aux_ok_true (natToDecChars i.natAbs) i.natAbs hparse (by omega)]
      omega
  · rw [formatInt, if_neg h]
    rw [parseInt64_mk_natToDecChars i.toNat (by omega)]
    omega

theorem parseInt64Aux_syntaxErr (neg : Bool) (digs : List Char)
    (hp : parseUint64 digs = ParseResult.syntaxErr) : parseInt64Aux neg digs = 0 := by
  unfold parseInt64Aux
  rw [hp]

theorem parseInt64Aux_rangeErr (neg : Bool) (digs : List Char)
    (hp : parseUint64 digs = ParseResult.rangeErr) :
    parseInt64Aux neg digs = if neg then -(2 ^ 63) else (2 ^ 63 - 1 : Int) := by
  unfold parseInt64Aux
  rw [hp]

theorem parseInt64Aux_clamp_false (digs : List Char) (un : Nat)
    (hp : parseUint64 digs = ParseResult.ok un) (hge : un ≥ 2 ^ 63) :
    parseInt64Aux false digs = ((2 ^ 63 - 1 : Nat) : Int) := by
  unfold parseInt64Aux
  rw [hp]
  show (if false = false ∧ un ≥ 2 ^ 63 then ((2 ^ 63 - 1 : Nat) : Int)
    else if false = true ∧ un > 2 ^ 63 then -(2 ^ 63)
    else if (false : Bool) then -(un : Int) else (un : Int)) = ((2 ^ 63 - 1 : Nat) : Int)
  rw [if_pos ⟨rfl, hge⟩]

theorem parseInt64Aux_clamp_true (digs : List Char) (un : Nat)
    (hp : parseUint64 digs = ParseResult.ok un) (hgt : un > 2 ^ 63) :
    parseInt64Aux true digs = -(2 ^ 63) := by
  unfold parseInt64Aux
  rw [hp]
  show (if true = false ∧ un ≥ 2 ^ 63 then ((2 ^ 63 - 1 : Nat) : Int)
    else if true = true ∧ un > 2 ^ 63 then -(2 ^ 63)
    else if (true : Bool) then -(un : Int) else (un : Int)) = -(2 ^ 63)
  rw [if_neg (by rintro ⟨h, -⟩; exact absurd h (by decide)), if_pos ⟨rfl, hgt⟩]

theorem parseInt64Aux_range (neg : Bool) (digs : List Char) :
    -(2 ^ 63) ≤ parseInt64Aux neg digs ∧ parseInt64Aux neg digs < 2 ^ 63 := by
  cases hq : parseUint64 digs with
  | syntaxErr => rw [parseInt64Aux_syntaxErr neg digs hq]; norm_num
  | rangeErr =>
    rw [parseInt64Aux_rangeErr neg digs hq]
    cases neg <;> norm_num
  | ok un =>
    cases neg with
    | false =>
      by_cases hge : un ≥ 2 ^ 63
      · rw [parseInt64Aux_clamp_false digs un hq hge]; omega
      · rw [parseInt64Aux_ok_false digs un hq (by omega)]; omega
    | true =>
      by_cases hgt : un > 2 ^ 63
      · rw [parseInt64Aux_clamp_true digs un hq hgt]; norm_num
      · rw [parseInt64Aux_ok_true digs un hq (by omega)]; omega

theorem parseInt64_eq_aux (s : String) :
    parseInt64 s = 0 ∨ ∃ neg digs, parseInt64 s = parseInt64Aux neg digs := by
  unfold parseInt64
  cases s.data with
  | nil => exact Or.inl rfl
  | cons c rest =>
    right
    by_cases h1 : c = '+'
    · refine ⟨false, rest, ?_⟩
      show (if c = '+' then parseInt64Aux false rest
        else if c = '-' then parseInt64Aux true rest
        else parseInt64Aux false (c :: rest)) = parseInt64Aux false rest
      rw [if_pos h1]
    · by_cases h2 : c = '-'
      · refine ⟨true, rest, ?_⟩
        show (if c = '+' then parseInt64Aux false rest
          else if c = '-' then parseInt64Aux true rest
          else parseInt64Aux false (c :: rest)) = parseInt64Aux true rest
        rw [if_neg h1, if_pos h2]
      · refine ⟨false, c :: rest, ?_⟩
        show (if c = '+' then parseInt64Aux false rest
          else if c = '-' then parseInt64Aux true rest
          else parseInt64Aux false (c :: rest)) = parseInt64Aux false (c :: rest)
        rw [if_neg h1, if_neg h2]

theorem parseInt64_range (s : String) :
    -(2 ^ 63) ≤ parseInt64 s ∧ parseInt64 s < 2 ^ 63 := by
  rcases parseInt64_eq_aux s with h | ⟨neg, digs, h⟩ <;> rw [h]
  · norm_num
  · exact parseInt64Aux_range neg digs

/-! ## Round trip of the identity codec -/

theorem SplitOrg_MakeOrg (dflt org : Int) (uid : String)
    (h1 : -(2 ^ 63) ≤ org) (h2 : org < 2 ^ 63) :
    SplitOrgResourceID dflt (MakeOrgResourceID org uid) = (org, uid) := by
  unfold SplitOrgResourceID MakeOrgResourceID
  have hdata : (formatInt org ++ ":" ++ uid).data
      = (formatInt org).data ++ ':' :: uid.data := by
    rw [data_append, data_append]
    simp [data_mk]
  rw [hdata, splitFirstColon_append _ _ (formatInt_no_colon org)]
  dsimp only
  rw [mk_data, mk_data, parseInt64_formatInt org h1 h2]

theorem SplitOrg_no_colon (dflt : Int) (t : String)
    (h : ∀ c ∈ t.data, c ≠ ':') :
    SplitOrgResourceID dflt t = (dflt, t) := by
  unfold SplitOrgResourceID
  rw [splitFirstColon_not_mem t.data h]

/-! ## Helper lemmas about the normalizer and the reconciler -/

theorem toPermissionCommand_fields (p : PermissionEntry) :
    toPermissionCommand p =
      { BuiltInRole := if p.role = "" then "" else p.role,
        TeamID := if 0 < parseInt64 (SplitOrgResourceID defaultOrgID p.team_id).2
                  then parseInt64 (SplitOrgResourceID defaultOrgID p.team_id).2 else 0,
        UserID := if 0 < parseInt64 (SplitOrgResourceID defaultOrgID p.user_id).2
                  then parseInt64 (SplitOrgResourceID defaultOrgID p.user_id).2 else 0,
        Permission := p.permission } := by
  unfold toPermissionCommand
  by_cases hr : p.role = "" <;>
    by_cases ht : 0 < parseInt64 (SplitOrgResourceID defaultOrgID p.team_id).2 <;>
    by_cases hu : 0 < parseInt64 (SplitOrgResourceID defaultOrgID p.user_id).2 <;>
    simp [hr, ht, hu]

theorem toPermissionItem_eq (g : ResourcePermissionDTO) :
    toPermissionItem g =
      if g.IsManaged = true ∧ g.IsInherited = false then
        some { role := g.BuiltInRole, team_id := formatInt g.TeamID,
               user_id := formatInt g.UserID, permission := g.Permission }
      else none := by
  unfold toPermissionItem
  cases hm : g.IsManaged <;> cases hi : g.IsInherited <;> simp [hm, hi]

theorem ReadFolderPermissions_no_set_call (c : Client) (d : ResourceData) :
    (ReadFolderPermissions c d).2.2.filter APICall.isSetCall = [] := by
  unfold ReadFolderPermissions
  by_cases h : (CheckReadError d
      (c.getFolderByUID (SplitOrgResourceID defaultOrgID d.id).2)).2.2 = true
  · simp [h, APICall.isSetCall]
  · cases hg : c.getResourcePermissions (SplitOrgResourceID defaultOrgID d.id).2
        foldersPermissionsType with
    | error e => simp [h, hg, APICall.isSetCall]
    | ok grants => simp [h, hg, APICall.isSetCall]

theorem UpdateFolderPermissions_set_calls (c : Client) (d : ResourceData) :
    (UpdateFolderPermissions c d).2.2.filter APICall.isSetCall
      = [APICall.setResourcePermissions d.folder_uid foldersPermissionsType
          (d.permissions.map toPermissionCommand)] := by
  unfold UpdateFolderPermissions
  cases hs : c.setResourcePermissions d.folder_uid foldersPermissionsType
      (d.permissions.map toPermissionCommand) with
  | some e => simp [hs, APICall.isSetCall]
  | none => simp [hs, APICall.isSetCall, ReadFolderPermissions_no_set_call]

theorem DeleteFolderPermissions_trace (c : Client) (d : ResourceData) :
    (DeleteFolderPermissions c d).2.2
      = [APICall.setResourcePermissions (SplitOrgResourceID defaultOrgID d.id).2
          foldersPermissionsType []] := rfl

theorem parseInt64_stripSign (s : String) (h : s.data ≠ []) :
    parseInt64 s = parseInt64Aux (stripSign s.data).1 (stripSign s.data).2 := by
  unfold parseInt64 stripSign
  cases hl : s.data with
  | nil => exact absurd hl h
  | cons c rest =>
    by_cases h1 : c = '+'
    · simp [h1]
    · by_cases h2 : c = '-' <;> simp [h1, h2]

/-! ## Claim theorems -/

/-- C1: for every declared permission entry, the grant command sets
`BuiltInRole` to the entry's role only when the role is non-empty, sets
`TeamID` (resp. `UserID`) to the integer parsed from the org-prefix-stripped
`team_id` (resp. `user_id`) string only when that value is strictly
positive (otherwise the field keeps its zero value), and copies the
permission verbatim; and in Scenario A the declared set containing the
single entry `Editor`/`"0"`/`"0"`/`Edit` on folder `abc123` in org 1 is
submitted as exactly one command `{Editor, 0, 0, Edit}` with encoded
identity `1:abc123`. -/
theorem c1_to_command_mapping :
    (∀ p : PermissionEntry,
      (toPermissionCommand p).Permission = p.permission
      ∧ (toPermissionCommand p).BuiltInRole = (if p.role = "" then "" else p.role)
      ∧ (toPermissionCommand p).TeamID =
          (if 0 < parseInt64 (SplitOrgResourceID defaultOrgID p.team_id).2
           then parseInt64 (SplitOrgResourceID defaultOrgID p.team_id).2 else 0)
      ∧ (toPermissionCommand p).UserID =
          (if 0 < parseInt64 (SplitOrgResourceID defaultOrgID p.user_id).2
           then parseInt64 (SplitOrgResourceID defaultOrgID p.user_id).2 else 0))
    ∧ (UpdateFolderPermissions scenarioClientA scenarioDataA).2.2.filter APICall.isSetCall
        = [APICall.setResourcePermissions "abc123" "folders"
            [{ BuiltInRole := "Editor", TeamID := 0, UserID := 0, Permission := "Edit" }]]
    ∧ (UpdateFolderPermissions scenarioClientA scenarioDataA).1.id = "1:abc123" := by
  refine ⟨fun p => ?_, ?_, ?_⟩
  · rw [toPermissionCommand_fields]
    exact ⟨rfl, rfl, rfl, rfl⟩
  · decide
  · decide

/-- C2: the read-side mapping drops every remote grant that is unmanaged
or inherited and surfaces every other grant as one declared entry with
`role` taken from `BuiltInRole`, `team_id`/`user_id` rendered as decimal
strings of the integer ids, and the permission copied verbatim; and in
Scenario B the two remote grants (managed non-inherited team-5 `View`,
managed inherited team-9 `Admin`) are read back as exactly the one entry
`{role "", team_id "5", user_id "0", permission "View"}`. -/
theorem c2_read_filter_and_map :
    (∀ g : ResourcePermissionDTO,
      toPermissionItem g =
        if g.IsManaged = true ∧ g.IsInherited = false then
          some { role := g.BuiltInRole, team_id := formatInt g.TeamID,
                 user_id := formatInt g.UserID, permission := g.Permission }
        else none)
    ∧ (ReadFolderPermissions scenarioClientB scenarioDataB).1.permissions
        = [{ role := "", team_id := "5", user_id := "0", permission := "View" }] := by
  exact ⟨toPermissionItem_eq, by decide⟩

/-- C3: for every declared entry whose `team_id` and `user_id` are the
canonical decimal strings of signed-64-bit-representable non-negative
integers, converting the entry to a grant command and mapping that
command back through the read side (as a managed, non-inherited grant)
yields the original entry. -/
theorem c3_normalizer_roundtrip (e : PermissionEntry) (tk uk : Int)
    (htk0 : 0 ≤ tk) (htk : tk < 2 ^ 63) (huk0 : 0 ≤ uk) (huk : uk < 2 ^ 63)
    (hte : e.team_id = formatInt tk) (hue : e.user_id = formatInt uk) :
    toPermissionItem (grantOfCommand (toPermissionCommand e) true false) = some e := by
  have hsplit_t : (SplitOrgResourceID defaultOrgID e.team_id).2 = e.team_id := by
    rw [hte, SplitOrg_no_colon _ _ (formatInt_no_colon tk)]
  have hsplit_u : (SplitOrgResourceID defaultOrgID e.user_id).2 = e.user_id := by
    rw [hue, SplitOrg_no_colon _ _ (formatInt_no_colon uk)]
  have hpt : parseInt64 (SplitOrgResourceID defaultOrgID e.team_id).2 = tk := by
    rw [hsplit_t, hte]
    exact parseInt64_formatInt tk (by omega) htk
  have hpu : parseInt64 (SplitOrgResourceID defaultOrgID e.user_id).2 = uk := by
    rw [hsplit_u, hue]
    exact parseInt64_formatInt uk (by omega) huk
  have hTeam : (toPermissionCommand e).TeamID = tk := by
    rw [toPermissionCommand_fields]
    dsimp only
    rw [hpt]
    by_cases h : 0 < tk
    · rw [if_pos h]
    · rw [if_neg h]; omega
  have hUser : (toPermissionCommand e).UserID = uk := by
    rw [toPermissionCommand_fields]
    dsimp only
    rw [hpu]
    by_cases h : 0 < uk
    · rw [if_pos h]
    · rw [if_neg h]; omega
  have hRole : (toPermissionCommand e).BuiltInRole = e.role := by
    rw [toPermissionCommand_fields]
    dsimp only
    by_cases h : e.role = ""
    · rw [if_pos h, h]
    · rw [if_neg h]
  have hPerm : (toPermissionCommand e).Permission = e.permission := by
    rw [toPermissionCommand_fields]
  rw [toPermissionItem_eq]
  unfold grantOfCommand
  dsimp only
  rw [if_pos ⟨rfl, rfl⟩, hTeam, hUser, hRole, hPerm, ← hte, ← hue]

/-- Witness for C3 at the entry `{Editor, "5", "0", Edit}`. -/
theorem c3_normalizer_roundtrip_witness :
    toPermissionItem (grantOfCommand (toPermissionCommand
      { role := "Editor", team_id := "5", user_id := "0", permission := "Edit" })
      true false)
    = some { role := "Editor", team_id := "5", user_id := "0", permission := "Edit" } :=
  c3_normalizer_roundtrip _ 5 0 (by decide) (by decide) (by decide) (by decide)
    (by decide) (by decide)

/-- C4: clear is, on the wire, apply with an empty declared set: delete
issues exactly one set-resource-permissions call carrying the empty
command list and the fixed `folders` resource type, an update whose
declared set is empty issues exactly one set call with the same empty
command list, and under a matching folder uid the two mutation traces
coincide; neither operation issues any other mutating call. -/
theorem c4_clear_is_empty_apply :
    (∀ (c : Client) (d : ResourceData),
      (DeleteFolderPermissions c d).2.2
        = [APICall.setResourcePermissions (SplitOrgResourceID defaultOrgID d.id).2
            foldersPermissionsType []])
    ∧ (∀ (c : Client) (d : ResourceData), d.permissions = [] →
      (UpdateFolderPermissions c d).2.2.filter APICall.isSetCall
        = [APICall.setResourcePermissions d.folder_uid foldersPermissionsType []])
    ∧ (∀ (c : Client) (d1 d2 : ResourceData), d2.permissions = [] →
      (SplitOrgResourceID defaultOrgID d1.id).2 = d2.folder_uid →
      (DeleteFolderPermissions c d1).2.2.filter APICall.isSetCall
        = (UpdateFolderPermissions c d2).2.2.filter APICall.isSetCall) := by
  have hdel : ∀ (c : Client) (d : ResourceData),
      (DeleteFolderPermissions c d).2.2
        = [APICall.setResourcePermissions (SplitOrgResourceID defaultOrgID d.id).2
            foldersPermissionsType []] :=
    fun c d => DeleteFolderPermissions_trace c d
  have hupd : ∀ (c : Client) (d : ResourceData), d.permissions = [] →
      (UpdateFolderPermissions c d).2.2.filter APICall.isSetCall
        = [APICall.setResourcePermissions d.folder_uid foldersPermissionsType []] := by
    intro c d hp
    rw [UpdateFolderPermissions_set_calls, hp]
    rfl
  refine ⟨hdel, hupd, fun c d1 d2 hp huid => ?_⟩
  rw [hdel c d1, hupd c d2 hp, huid]
  rfl

/-- Witness for C4 on a concrete stored identity and an empty declared
set. -/
theorem c4_clear_is_empty_apply_witness :
    (DeleteFolderPermissions scenarioClientA scenarioDataB).2.2
      = [APICall.setResourcePermissions "abc123" foldersPermissionsType []]
    ∧ (UpdateFolderPermissions scenarioClientA
        { id := "", org_id := "1", folder_uid := "abc123", permissions := [] }).2.2.filter
          APICall.isSetCall
      = [APICall.setResourcePermissions "abc123" foldersPermissionsType []]
    ∧ (DeleteFolderPermissions scenarioClientA scenarioDataB).2.2.filter APICall.isSetCall
      = (UpdateFolderPermissions scenarioClientA
          { id := "", org_id := "1", folder_uid := "abc123",
            permissions := [] }).2.2.filter APICall.isSetCall := by
  refine ⟨?_, ?_, ?_⟩
  · exact c4_clear_is_empty_apply.1 scenarioClientA scenarioDataB
  · exact c4_clear_is_empty_apply.2.1 scenarioClientA
      { id := "", org_id := "1", folder_uid := "abc123", permissions := [] } (by decide)
  · exact c4_clear_is_empty_apply.2.2 scenarioClientA scenarioDataB
      { id := "", org_id := "1", folder_uid := "abc123", permissions := [] }
      (by decide) (by decide)

/-- C5: the identity codec round-trips: for every representable
non-negative org id and non-empty resource uid, decoding the encoded
token recovers exactly the pair; and decoding a token that carries no
org segment (no colon) does not fail but yields the configured default
org id with the token as the uid. -/
theorem c5_identity_codec_roundtrip :
    (∀ (org : Int) (uid : String) (dflt : Int),
      0 ≤ org → org < 2 ^ 63 → uid ≠ "" →
      SplitOrgResourceID dflt (MakeOrgResourceID org uid) = (org, uid))
    ∧ (∀ (dflt : Int) (t : String), (∀ c ∈ t.data, c ≠ ':') →
      SplitOrgResourceID dflt t = (dflt, t)) := by
  constructor
  · intro org uid dflt h1 h2 _
    exact SplitOrg_MakeOrg dflt org uid (by omega) h2
  · intro dflt t h
    exact SplitOrg_no_colon dflt t h

/-- Witness for C5 at org 1, uid `abc123`, default org 1. -/
theorem c5_identity_codec_roundtrip_witness :
    SplitOrgResourceID 1 (MakeOrgResourceID 1 "abc123") = (1, "abc123")
    ∧ SplitOrgResourceID 1 "abc123" = (1, "abc123") :=
  ⟨c5_identity_codec_roundtrip.1 1 "abc123" 1 (by decide) (by decide) (by decide),
   c5_identity_codec_roundtrip.2 1 "abc123" (by decide)⟩

/-- C6: when the folder behind the stored identity no longer exists,
read drops the stored identity, returns non-error (warning) diagnostics,
and issues no grant-fetching call at all. -/
theorem c6_read_gone_is_success (c : Client) (d : ResourceData)
    (h : c.getFolderByUID (SplitOrgResourceID defaultOrgID d.id).2
      = some APIError.notFound) :
    (ReadFolderPermissions c d).1.id = ""
    ∧ (ReadFolderPermissions c d).2.1.isError = false
    ∧ (ReadFolderPermissions c d).2.2
        = [APICall.getFolderByUID (SplitOrgResourceID defaultOrgID d.id).2] := by
  unfold ReadFolderPermissions
  simp [h, CheckReadError, Diags.isError]

/-- Witness for C6 with a client whose folder lookup reports
not-found. -/
theorem c6_read_gone_is_success_witness :
    (ReadFolderPermissions goneClient scenarioDataB).1.id = ""
    ∧ (ReadFolderPermissions goneClient scenarioDataB).2.1.isError = false
    ∧ (ReadFolderPermissions goneClient scenarioDataB).2.2
        = [APICall.getFolderByUID
            (SplitOrgResourceID defaultOrgID scenarioDataB.id).2] :=
  c6_read_gone_is_success goneClient scenarioDataB (by decide)

/-- C7: when the underlying folder is gone, the not-found error of the
empty-replace write issued by delete is swallowed: delete reports
non-error (warning) diagnostics. -/
theorem c7_clear_gone_is_success (c : Client) (d : ResourceData)
    (h : c.setResourcePermissions (SplitOrgResourceID defaultOrgID d.id).2
      foldersPermissionsType [] = some APIError.notFound) :
    (DeleteFolderPermissions c d).2.1.isError = false
    ∧ (DeleteFolderPermissions c d).2.1 = Diags.warning := by
  unfold DeleteFolderPermissions
  simp [h, CheckReadError, Diags.isError]

/-- Witness for C7 with a client whose write reports not-found. -/
theorem c7_clear_gone_is_success_witness :
    (DeleteFolderPermissions goneClient scenarioDataB).2.1.isError = false
    ∧ (DeleteFolderPermissions goneClient scenarioDataB).2.1 = Diags.warning :=
  c7_clear_gone_is_success goneClient scenarioDataB (by decide)

/-- C8: if the full-replace write fails, update returns the upstream
error verbatim, leaves the resource data (including the stored identity)
unchanged, and has issued exactly that one call — no retry and no partial
success; if the write succeeds (and the subsequent re-read finds the
folder and its grants), the stored identity is the token encoded from the
declared org id and folder uid. -/
theorem c8_apply_atomicity :
    (∀ (c : Client) (d : ResourceData) (e : APIError),
      c.setResourcePermissions d.folder_uid foldersPermissionsType
          (d.permissions.map toPermissionCommand) = some e →
      UpdateFolderPermissions c d
        = (d, Diags.error e,
            [APICall.setResourcePermissions d.folder_uid foldersPermissionsType
              (d.permissions.map toPermissionCommand)]))
    ∧ (∀ (c : Client) (d : ResourceData) (grants : List ResourcePermissionDTO),
      c.setResourcePermissions d.folder_uid foldersPermissionsType
          (d.permissions.map toPermissionCommand) = none →
      c.getFolderByUID d.folder_uid = none →
      c.getResourcePermissions d.folder_uid foldersPermissionsType = Except.ok grants →
      (UpdateFolderPermissions c d).1.id
        = MakeOrgResourceID (parseInt64 d.org_id) d.folder_uid) := by
  constructor
  · intro c d e hs
    unfold UpdateFolderPermissions
    simp [hs]
  · intro c d grants hs hf hg
    unfold UpdateFolderPermissions
    simp only [hs]
    unfold ReadFolderPermissions
    have hb := parseInt64_range d.org_id
    have hsplit : SplitOrgResourceID defaultOrgID
        (MakeOrgResourceID (parseInt64 d.org_id) d.folder_uid)
        = (parseInt64 d.org_id, d.folder_uid) :=
      SplitOrg_MakeOrg _ _ _ hb.1 hb.2
    simp [hsplit, hf, hg, CheckReadError]

/-- Witness for C8: a rejected write on Scenario A's data propagates the
error with the data unchanged; a successful write stores the encoded
identity. -/
theorem c8_apply_atomicity_witness :
    UpdateFolderPermissions rejectClient scenarioDataA
      = (scenarioDataA, Diags.error (APIError.other "upstream rejected"),
          [APICall.setResourcePermissions scenarioDataA.folder_uid foldersPermissionsType
            (scenarioDataA.permissions.map toPermissionCommand)])
    ∧ (UpdateFolderPermissions scenarioClientA scenarioDataA).1.id
        = MakeOrgResourceID (parseInt64 scenarioDataA.org_id) scenarioDataA.folder_uid :=
  ⟨c8_apply_atomicity.1 rejectClient scenarioDataA (APIError.other "upstream rejected")
      (by decide),
   c8_apply_atomicity.2 scenarioClientA scenarioDataA [] (by decide) (by decide) rfl⟩

/-- C9: the set-membership key of a declared entry is built from exactly
the role, the org-prefix-stripped team id, the org-prefix-stripped user
id, and the permission; two entries that agree on those four components
(in particular entries differing only in an org-scope qualifier such as
`"5"` versus `"1:5"`) get equal keys, and the set deduplication collapses
them to a single member. -/
theorem c9_identity_hash_key :
    (∀ p q : PermissionEntry, p.role = q.role → p.permission = q.permission →
      (SplitOrgResourceID defaultOrgID p.team_id).2
        = (SplitOrgResourceID defaultOrgID q.team_id).2 →
      (SplitOrgResourceID defaultOrgID p.user_id).2
        = (SplitOrgResourceID defaultOrgID q.user_id).2 →
      permissionSetKey p = permissionSetKey q)
    ∧ permissionSetKey { role := "", team_id := "1:5", user_id := "0", permission := "View" }
        = permissionSetKey { role := "", team_id := "5", user_id := "0", permission := "View" }
    ∧ dedupByKey [{ role := "", team_id := "5", user_id := "0", permission := "View" },
         { role := "", team_id := "1:5", user_id := "0", permission := "View" }]
        = [{ role := "", team_id := "5", user_id := "0", permission := "View" }] := by
  refine ⟨fun p q hr hp ht hu => ?_, by decide, by decide⟩
  unfold permissionSetKey
  rw [hr, hp, ht, hu]

/-- Witness for C9 applying the key equality to `"1:5"` versus `"5"`. -/
theorem c9_identity_hash_key_witness :
    permissionSetKey { role := "Viewer", team_id := "1:5", user_id := "0", permission := "View" }
      = permissionSetKey { role := "Viewer", team_id := "5", user_id := "0", permission := "View" } :=
  c9_identity_hash_key.1 _ _ (by decide) (by decide) (by decide) (by decide)

/-- C10 counterexample: the team id string `"99999999999999999999"` does
not parse as a decimal 64-bit integer, yet the command's `TeamID` is not
left at its zero value: Go's `ParseInt` returns the clamped boundary
9223372036854775807 with the range error discarded, and the positive
clamped value is assigned. -/
theorem c10_unparseable_counterexample :
    (toPermissionCommand { role := "", team_id := "99999999999999999999", user_id := "0", permission := "View" }).TeamID = 9223372036854775807
    ∧ (toPermissionCommand { role := "", team_id := "99999999999999999999", user_id := "0", permission := "View" }).TeamID ≠ 0 := by
  exact ⟨by decide, by decide⟩

/-- C10 as amended: `to_command` never rejects an entry; a team or user
id string (after org-prefix stripping) that fails to parse for a syntax
reason yields the parsed value 0 and leaves the command field at its zero
value, while a syntactically numeric string that overflows the signed
64-bit range yields Go's clamped boundary value — for a positive
overflow 9223372036854775807, which, being positive, is assigned to the
field. -/
theorem c10_parse_failure_behavior :
    (∀ e : PermissionEntry,
      parseUint64 (stripSign ((SplitOrgResourceID defaultOrgID e.team_id).2).data).2
          = ParseResult.syntaxErr →
      (toPermissionCommand e).TeamID = 0)
    ∧ (∀ e : PermissionEntry,
      parseUint64 (stripSign ((SplitOrgResourceID defaultOrgID e.user_id).2).data).2
          = ParseResult.syntaxErr →
      (toPermissionCommand e).UserID = 0)
    ∧ (∀ e : PermissionEntry,
      (stripSign ((SplitOrgResourceID defaultOrgID e.team_id).2).data).1 = false →
      parseUint64 (stripSign ((SplitOrgResourceID defaultOrgID e.team_id).2).data).2
          = ParseResult.rangeErr →
      (toPermissionCommand e).TeamID = 9223372036854775807) := by
  have hval : ∀ (s : String),
      parseUint64 (stripSign s.data).2 = ParseResult.syntaxErr → parseInt64 s = 0 := by
    intro s hsy
    by_cases hd : s.data = []
    · unfold parseInt64
      rw [hd]
    · rw [parseInt64_stripSign s hd,
        parseInt64Aux_syntaxErr (stripSign s.data).1 (stripSign s.data).2 hsy]
  refine ⟨fun e hsy => ?_, fun e hsy => ?_, fun e hneg hr => ?_⟩
  · rw [toPermissionCommand_fields]
    dsimp only
    rw [hval _ hsy]
    norm_num
  · rw [toPermissionCommand_fields]
    dsimp only
    rw [hval _ hsy]
    norm_num
  · have hd : ((SplitOrgResourceID defaultOrgID e.team_id).2).data ≠ [] := by
      intro hnil
      rw [hnil] at hr
      exact absurd hr (by decide)
    have hv : parseInt64 (SplitOrgResourceID defaultOrgID e.team_id).2
        = 9223372036854775807 := by
      rw [parseInt64_stripSign _ hd, hneg,
        parseInt64Aux_rangeErr false (stripSign ((SplitOrgResourceID defaultOrgID
          e.team_id).2).data).2 hr]
      norm_num
    rw [toPermissionCommand_fields]
    dsimp only
    rw [hv, if_pos (by norm_num)]

/-- Witness for the amended C10: the syntactically broken id `"abc"`
leaves `TeamID` at 0, while the overflowing id
`"99999999999999999999"` sets it to the clamped boundary. -/
theorem c10_parse_failure_behavior_witness :
    (toPermissionCommand { role := "", team_id := "abc", user_id := "x9", permission := "View" }).TeamID = 0
    ∧ (toPermissionCommand { role := "", team_id := "abc", user_id := "x9", permission := "View" }).UserID = 0
    ∧ (toPermissionCommand { role := "", team_id := "99999999999999999999", user_id := "0", permission := "Edit" }).TeamID = 9223372036854775807 :=
  ⟨c10_parse_failure_behavior.1 _ (by decide),
   c10_parse_failure_behavior.2.1 _ (by decide),
   c10_parse_failure_behavior.2.2 _ (by decide) (by decide)⟩
